import Mathlib

/-
Verification of the index fixing-resolution and zero-coupon-swap components
of the QuantLib excerpt (src/ql/indexes/equityindex.hpp,
src/ql/instruments/zerocouponswap.hpp).

The repository excerpt contains only the headers; the corresponding
implementation files (equityindex.cpp, zerocouponswap.cpp) are not part of
the excerpt.  Definitions taken verbatim from the headers are marked as
such; definitions whose bodies live in the missing implementation files are
modelled from the specification and carry a doc comment starting with
"Modelled from the spec:".

Dates are serial numbers (as in QuantLib, where Date wraps a serial
number); monetary values and rates are rationals.
-/

/-- A date, identified by its serial number (QuantLib Date wraps a serial). -/
abbrev Date := Nat

/-- Business-day conventions (subset of the QuantLib enum; `Following` is the
one used as a default argument in src/ql/instruments/zerocouponswap.hpp). -/
inductive BusinessDayConvention
  | Following
  | ModifiedFollowing
  | Preceding
  | ModifiedPreceding
  | Unadjusted
deriving DecidableEq, Repr

/-- External collaborator (out of scope per the spec): a calendar offers a
business-day test and date adjustment (`advance` by a number of days under a
business-day convention). -/
structure Calendar where
  isBusinessDay : Date → Bool
  advance : Date → Nat → BusinessDayConvention → Date

/-- External collaborator: a yield term structure, consumed only through its
discount factor at a date. -/
structure YieldTermStructure where
  discount : Date → ℚ

/-- External collaborator: a day-count convention, consumed only through
`yearFraction`. -/
structure DayCounter where
  yearFraction : Date → Date → ℚ

/-- Failure modes of fixing resolution (spec section 7 taxonomy; `NullCurve`
stands for the failure of curve-based forecasting when a required curve
handle is empty). -/
inductive FixingError
  | InvalidDate
  | MissingFixing
  | NullCurve
deriving DecidableEq, Repr

/-- Failure modes of the instrument-engine bridge (spec section 7 taxonomy). -/
inductive PricingError
  | ArgumentValidationError
  | UnsupportedPairing
deriving DecidableEq, Repr

/-- The equity index data, mirroring the fields of `class EquityIndex` in
src/ql/indexes/equityindex.hpp: `name_`, `currency_`, `interest_`,
`dividend_`, `settlementCalendar_`.  A curve `Handle` that may be empty is
modelled as an `Option YieldTermStructure`.  `observers` is the
change-propagation subscriber set of the index (spec section 3,
Observable). -/
structure EquityIndex where
  name : String
  currency : String
  interest : Option YieldTermStructure
  dividend : Option YieldTermStructure
  settlementCalendar : Calendar
  observers : List String

/-- From src/ql/indexes/equityindex.hpp line 46:
`Calendar fixingCalendar() const override { return settlementCalendar_; }`. -/
def EquityIndex.fixingCalendar (i : EquityIndex) : Calendar :=
  i.settlementCalendar

/-- From src/ql/indexes/equityindex.hpp lines 86-88:
`return fixingCalendar().isBusinessDay(d);`. -/
def EquityIndex.isValidFixingDate (i : EquityIndex) (d : Date) : Bool :=
  (i.fixingCalendar).isBusinessDay d

/-- Fixing-resolution environment: the process-wide evaluation date
("today"), the external historical-fixing store (a partial map from dates to
values), and the last available spot level used by curve-based forecasting
(spec section 4.2: the forecast is "scaled by the last available
spot/historical level"). -/
structure FixingEnv where
  today : Date
  pastFixings : Date → Option ℚ
  lastSpot : ℚ

/-- Modelled from the spec: the default `pastFixing` implementation in the
missing equityindex.cpp is the historical lookup against the external
store. -/
def EquityIndex.pastFixing (_i : EquityIndex) (env : FixingEnv) (d : Date) :
    Option ℚ :=
  env.pastFixings d

/-- Modelled from the spec: the default `forecastFixing` implementation in
the missing equityindex.cpp computes a forward value as the ratio of the two
curve handles' discount factors between today and the fixing date, scaled by
the last available spot level; it needs both curve handles to be linked. -/
def EquityIndex.forecastFixing (i : EquityIndex) (env : FixingEnv)
    (d : Date) : Except FixingError ℚ :=
  match i.interest, i.dividend with
  | some r, some q =>
      Except.ok (env.lastSpot * (q.discount d / q.discount env.today) /
        (r.discount d / r.discount env.today))
  | _, _ => Except.error FixingError.NullCurve

/-- Modelled from the spec: the fixing-resolution state machine of
`EquityIndex::fixing` (declared at src/ql/indexes/equityindex.hpp line 48,
body in the missing equityindex.cpp).  Step 1: invalid dates fail; step 2:
dates before today are historical lookups; step 3: today is historical
first unless `forecastTodaysFixing`; step 4: future dates are forecast. -/
def EquityIndex.fixing (i : EquityIndex) (env : FixingEnv) (d : Date)
    (forecastTodaysFixing : Bool) : Except FixingError ℚ :=
  if i.isValidFixingDate d then
    if d < env.today then
      match i.pastFixing env d with
      | some v => Except.ok v
      | none => Except.error FixingError.MissingFixing
    else if d = env.today then
      if forecastTodaysFixing then
        i.forecastFixing env d
      else
        match i.pastFixing env d with
        | some v => Except.ok v
        | none => i.forecastFixing env d
    else
      i.forecastFixing env d
  else
    Except.error FixingError.InvalidDate

/-- Modelled from the spec: `EquityIndex::clone` (declared at
src/ql/indexes/equityindex.hpp lines 71-73, body in the missing
equityindex.cpp) returns a new index with identical name, currency and
calendar but relinked curve handles; the fresh object starts with no
registered observers and the original is not mutated. -/
def EquityIndex.clone (i : EquityIndex)
    (interest dividend : Option YieldTermStructure) : EquityIndex :=
  { name := i.name
    currency := i.currency
    interest := interest
    dividend := dividend
    settlementCalendar := i.settlementCalendar
    observers := [] }

/-- The averaging mode of the floating leg, mirroring `RateAveraging::Type`
(included from ql/cashflows/rateaveraging.hpp in
src/ql/instruments/zerocouponswap.hpp). -/
inductive RateAveraging
  | Simple
  | Compound
deriving DecidableEq, Repr

/-- The swap type, mirroring `enum Type { Receiver = -1, Payer = 1 }` at
src/ql/instruments/zerocouponswap.hpp line 77. -/
inductive SwapType
  | Receiver
  | Payer
deriving DecidableEq, Repr

/-- The integer value of each enumerator, as fixed by the header:
`Receiver = -1, Payer = 1`. -/
def SwapType.toInt : SwapType → Int
  | SwapType.Receiver => -1
  | SwapType.Payer => 1

/-- Modelled from the spec: the per-leg signs used when the two leg NPVs
are aggregated into the instrument NPV.  "Payer" and "receiver" refer to
the fixed leg (header line 105), so the fixed leg carries the opposite of
the type sign and the floating leg carries the type sign. -/
def SwapType.payerSigns (t : SwapType) : List Int :=
  [-t.toInt, t.toInt]

/-- A dated cash flow (QuantLib SimpleCashFlow: an amount paid at a date). -/
structure SimpleCashFlow where
  date : Date
  amount : ℚ
deriving DecidableEq, Repr

/-- A leg is a sequence of cash flows. -/
abbrev Leg := List SimpleCashFlow

/-- Modelled from the spec: the floating-leg amount of the missing
zerocouponswap.cpp, determined by averaging interest-rate index fixings
over sub-periods.  `subPeriods` lists, for each sub-period k, the accrual
fraction and the index fixing resolved for it.  Simple averaging pays
nominal times the sum of accrualFraction times fixing; compound averaging
pays nominal times (the product of (1 + accrualFraction times fixing),
minus 1). -/
def floatingLegAmount (method : RateAveraging) (nominal : ℚ)
    (subPeriods : List (ℚ × ℚ)) : ℚ :=
  match method with
  | RateAveraging.Simple =>
      nominal * (subPeriods.map (fun p => p.1 * p.2)).sum
  | RateAveraging.Compound =>
      nominal * ((subPeriods.map (fun p => 1 + p.1 * p.2)).prod - 1)

/-- The zero-coupon swap data, mirroring the protected fields of
`class ZeroCouponSwap` in src/ql/instruments/zerocouponswap.hpp lines
131-137 (`type_`, `baseNominal_`, `startDate_`, `maturityDate_`,
`fixedPayment_`, `iborIndex_`) together with the two legs held by the
`Swap` base. -/
structure ZeroCouponSwap where
  type : SwapType
  baseNominal : ℚ
  startDate : Date
  maturityDate : Date
  fixedPayment : ℚ
  iborIndexName : String
  fixedLeg : Leg
  floatingLeg : Leg

/-- Modelled from the spec: the first constructor variant of
`ZeroCouponSwap` (declared at src/ql/instruments/zerocouponswap.hpp lines
80-89, body in the missing zerocouponswap.cpp), taking the fixed cash-flow
amount directly.  Each leg gets exactly one cash flow, dated at the
maturity date advanced by the payment delay under the given business-day
convention.  `subPeriods` is the floating sub-period data (accrual
fraction and index fixing per sub-period) consumed from the index. -/
def mkZeroCouponSwap (type : SwapType) (baseNominal : ℚ)
    (startDate maturityDate : Date) (fixedPayment : ℚ)
    (iborIndexName : String) (subPeriods : List (ℚ × ℚ))
    (calendar : Calendar) (convention : BusinessDayConvention)
    (paymentDelay : Nat) (averagingMethod : RateAveraging) : ZeroCouponSwap :=
  let paymentDate := calendar.advance maturityDate paymentDelay convention
  { type := type
    baseNominal := baseNominal
    startDate := startDate
    maturityDate := maturityDate
    fixedPayment := fixedPayment
    iborIndexName := iborIndexName
    fixedLeg := [{ date := paymentDate, amount := fixedPayment }]
    floatingLeg := [{ date := paymentDate,
                      amount := floatingLegAmount averagingMethod baseNominal subPeriods }] }

/-- Modelled from the spec: the second constructor variant (declared at
src/ql/instruments/zerocouponswap.hpp lines 91-101), taking a fixed rate
and a day-count convention and deriving the fixed payment by compounding
the rate over the accrual fraction between start and maturity, per the
header formula nominal times ((1 + rate) to the power of the fraction,
minus 1).  Real-number exponentiation is an external numeric routine,
passed as `pow1p` with `pow1p K a` standing for (1 + K) to the power a. -/
def mkZeroCouponSwapFromRate (type : SwapType) (baseNominal : ℚ)
    (startDate maturityDate : Date) (fixedRate : ℚ)
    (fixedDayCounter : DayCounter) (pow1p : ℚ → ℚ → ℚ)
    (iborIndexName : String) (subPeriods : List (ℚ × ℚ))
    (calendar : Calendar) (convention : BusinessDayConvention)
    (paymentDelay : Nat) (averagingMethod : RateAveraging) : ZeroCouponSwap :=
  mkZeroCouponSwap type baseNominal startDate maturityDate
    (baseNominal *
      (pow1p fixedRate (fixedDayCounter.yearFraction startDate maturityDate) - 1))
    iborIndexName subPeriods calendar convention paymentDelay averagingMethod

/-- The first constructor with its trailing arguments omitted: per the
default arguments in src/ql/instruments/zerocouponswap.hpp lines 87-89 the
convention defaults to `Following`, the payment delay to 0 and the
averaging method to `RateAveraging::Compound`. -/
def mkZeroCouponSwapDefault (type : SwapType) (baseNominal : ℚ)
    (startDate maturityDate : Date) (fixedPayment : ℚ)
    (iborIndexName : String) (subPeriods : List (ℚ × ℚ))
    (calendar : Calendar) : ZeroCouponSwap :=
  mkZeroCouponSwap type baseNominal startDate maturityDate fixedPayment
    iborIndexName subPeriods calendar BusinessDayConvention.Following 0
    RateAveraging.Compound

/-- The second constructor with its trailing arguments omitted: per the
default arguments in src/ql/instruments/zerocouponswap.hpp lines 99-101 the
convention defaults to `Following`, the payment delay to 0 and the
averaging method to `RateAveraging::Compound`. -/
def mkZeroCouponSwapFromRateDefault (type : SwapType) (baseNominal : ℚ)
    (startDate maturityDate : Date) (fixedRate : ℚ)
    (fixedDayCounter : DayCounter) (pow1p : ℚ → ℚ → ℚ)
    (iborIndexName : String) (subPeriods : List (ℚ × ℚ))
    (calendar : Calendar) : ZeroCouponSwap :=
  mkZeroCouponSwapFromRate type baseNominal startDate maturityDate fixedRate
    fixedDayCounter pow1p iborIndexName subPeriods calendar
    BusinessDayConvention.Following 0 RateAveraging.Compound

/-- The engine-visible arguments snapshot for the swap
(`ZeroCouponSwap::arguments`, src/ql/instruments/zerocouponswap.hpp lines
140-143, extending `Swap::arguments` with `validate`): plain data written
only by the instrument and read and validated only by the engine. -/
structure ZeroCouponSwapArguments where
  baseNominal : ℚ
  startDate : Date
  maturityDate : Date
  legs : List Leg
  payerSigns : List Int

/-- Modelled from the spec: `ZeroCouponSwap::setupArguments` (declared at
src/ql/instruments/zerocouponswap.hpp line 121) populates the
engine-visible snapshot from the instrument state. -/
def ZeroCouponSwap.setupArguments (s : ZeroCouponSwap) :
    ZeroCouponSwapArguments :=
  { baseNominal := s.baseNominal
    startDate := s.startDate
    maturityDate := s.maturityDate
    legs := [s.fixedLeg, s.floatingLeg]
    payerSigns := s.type.payerSigns }

/-- Modelled from the spec: `ZeroCouponSwap::arguments::validate`
(declared at src/ql/instruments/zerocouponswap.hpp line 142, body in the
missing zerocouponswap.cpp) fails with an argument-validation error if the
snapshot is structurally inconsistent: a non-positive nominal, or a
maturity not after the start (spec section 7). -/
def ZeroCouponSwapArguments.validate (a : ZeroCouponSwapArguments) :
    Except PricingError Unit :=
  if a.baseNominal ≤ 0 then
    Except.error PricingError.ArgumentValidationError
  else if a.maturityDate ≤ a.startDate then
    Except.error PricingError.ArgumentValidationError
  else
    Except.ok ()

/-- Modelled from the spec: the engine driver runs `validate` before
`calculate`; a validation failure aborts the valuation call and no result
is produced (spec sections 4.3 and 7). -/
def engineCalculate {R : Type} (a : ZeroCouponSwapArguments)
    (compute : ZeroCouponSwapArguments → R) : Except PricingError R :=
  match a.validate with
  | Except.error e => Except.error e
  | Except.ok _ => Except.ok (compute a)

/-- Modelled from the spec: the instrument NPV aggregates the per-leg NPVs
with the per-leg signs derived from the swap type (spec section 4.4: the
type is a sign multiplier applied to the floating leg relative to the
fixed leg). -/
def aggregateNPV : List Int → List ℚ → ℚ
  | s :: ss, v :: vs => (s : ℚ) * v + aggregateNPV ss vs
  | _, _ => 0

/-- Modelled from the spec: the instrument NPV of the swap, given the two
leg NPVs produced by the engine. -/
def ZeroCouponSwap.instrumentNPV (s : ZeroCouponSwap)
    (fixedLegNPV floatingLegNPV : ℚ) : ℚ :=
  aggregateNPV s.type.payerSigns [fixedLegNPV, floatingLegNPV]

/-
Concrete sample objects, used by the witness theorems below.
-/

/-- A sample calendar in which every date is a business day and `advance`
shifts by the raw number of days. -/
def sampleCalendar : Calendar :=
  { isBusinessDay := fun _ => true
    advance := fun d n _ => d + n }

/-- A sample flat curve with unit discount factors. -/
def sampleCurve : YieldTermStructure :=
  { discount := fun _ => 1 }

/-- A sample equity index with both curve handles linked. -/
def sampleIndex : EquityIndex :=
  { name := "EQI"
    currency := "USD"
    interest := some sampleCurve
    dividend := some sampleCurve
    settlementCalendar := sampleCalendar
    observers := [] }

/-- A sample fixing environment: the evaluation date is 10, the historical
store holds 100 at date 3 and 120 at date 10, and the last spot is 100. -/
def sampleEnv : FixingEnv :=
  { today := 10
    pastFixings := fun d => if d = 3 then some 100 else if d = 10 then some 120 else none
    lastSpot := 100 }

/-- Claim C9: for every date d, `isValidFixingDate d` returns exactly the
boolean `fixingCalendar().isBusinessDay(d)` (src/ql/indexes/equityindex.hpp
lines 86-88). -/
theorem isValidFixingDate_eq_isBusinessDay (i : EquityIndex) (d : Date) :
    i.isValidFixingDate d = (i.fixingCalendar).isBusinessDay d := rfl

/-- Claim C2: under simple averaging the floating-leg cash-flow amount is
the base nominal times the sum over sub-periods of accrual fraction times
fixing, with no subtraction of 1; with two sub-periods of year fractions
1/2 and 1/2 and fixings 1/50 (= 0.02) and 3/100 (= 0.03), the amount is
nominal times 1/40 (= 0.025). -/
theorem simple_averaging_floating_amount :
    (∀ (t : SwapType) (N : ℚ) (sd md : Date) (p : ℚ) (idx : String)
        (subs : List (ℚ × ℚ)) (cal : Calendar) (conv : BusinessDayConvention)
        (delay : Nat),
      (mkZeroCouponSwap t N sd md p idx subs cal conv delay
          RateAveraging.Simple).floatingLeg.map SimpleCashFlow.amount
        = [N * (subs.map (fun q => q.1 * q.2)).sum])
    ∧ (∀ (t : SwapType) (N : ℚ) (sd md : Date) (p : ℚ) (idx : String)
        (cal : Calendar) (conv : BusinessDayConvention) (delay : Nat),
      (mkZeroCouponSwap t N sd md p idx [(1/2, 1/50), (1/2, 3/100)] cal conv
          delay RateAveraging.Simple).floatingLeg.map SimpleCashFlow.amount
        = [N * (1/40)]) := by
  constructor
  · intro t N sd md p idx subs cal conv delay
    rfl
  · intro t N sd md p idx cal conv delay
    simp only [mkZeroCouponSwap, floatingLegAmount, List.map_cons, List.map_nil,
      List.sum_cons, List.sum_nil]
    norm_num

/-- Claim C4: under compound averaging the floating-leg cash-flow amount is
the base nominal times (the product over sub-periods of
(1 + accrual fraction times fixing), minus 1); with two sub-periods of year
fractions 1/2 and 1/2 and fixings 1/50 and 3/100, the amount is nominal
times ((101/100) * (203/200) - 1), i.e. nominal times ((1.01)(1.015) - 1). -/
theorem compound_averaging_floating_amount :
    (∀ (t : SwapType) (N : ℚ) (sd md : Date) (p : ℚ) (idx : String)
        (subs : List (ℚ × ℚ)) (cal : Calendar) (conv : BusinessDayConvention)
        (delay : Nat),
      (mkZeroCouponSwap t N sd md p idx subs cal conv delay
          RateAveraging.Compound).floatingLeg.map SimpleCashFlow.amount
        = [N * ((subs.map (fun q => 1 + q.1 * q.2)).prod - 1)])
    ∧ (∀ (t : SwapType) (N : ℚ) (sd md : Date) (p : ℚ) (idx : String)
        (cal : Calendar) (conv : BusinessDayConvention) (delay : Nat),
      (mkZeroCouponSwap t N sd md p idx [(1/2, 1/50), (1/2, 3/100)] cal conv
          delay RateAveraging.Compound).floatingLeg.map SimpleCashFlow.amount
        = [N * ((101 / 100) * (203 / 200) - 1)]) := by
  constructor
  · intro t N sd md p idx subs cal conv delay
    rfl
  · intro t N sd md p idx cal conv delay
    simp only [mkZeroCouponSwap, floatingLegAmount, List.map_cons, List.map_nil,
      List.prod_cons, List.prod_nil]
    norm_num

/-- Claim C8: both constructor variants build a swap whose fixed leg and
floating leg each contain exactly one cash flow, and the snapshot taken by
`setupArguments` (the only later operation that reads the legs) preserves
this: its two legs also have length one. -/
theorem one_cashflow_per_leg :
    ∀ (t : SwapType) (N : ℚ) (sd md : Date) (p r : ℚ) (dc : DayCounter)
      (pw : ℚ → ℚ → ℚ) (idx : String) (subs : List (ℚ × ℚ)) (cal : Calendar)
      (conv : BusinessDayConvention) (delay : Nat) (avg : RateAveraging),
      ((mkZeroCouponSwap t N sd md p idx subs cal conv delay avg).fixedLeg.length = 1
        ∧ (mkZeroCouponSwap t N sd md p idx subs cal conv delay avg).floatingLeg.length = 1)
      ∧ ((mkZeroCouponSwapFromRate t N sd md r dc pw idx subs cal conv delay avg).fixedLeg.length = 1
        ∧ (mkZeroCouponSwapFromRate t N sd md r dc pw idx subs cal conv delay avg).floatingLeg.length = 1)
      ∧ (mkZeroCouponSwap t N sd md p idx subs cal conv delay avg).setupArguments.legs.map
          List.length = [1, 1] := by
  intro t N sd md p r dc pw idx subs cal conv delay avg
  exact ⟨⟨rfl, rfl⟩, ⟨rfl, rfl⟩, rfl⟩

/-- Claim C10: in both constructor variants the trailing parameters default
to the `Following` business-day convention, a payment delay of 0, and
compound averaging; constructing without these arguments yields exactly the
swap constructed with those values passed explicitly. -/
theorem constructor_default_trailing_arguments :
    (∀ (t : SwapType) (N : ℚ) (sd md : Date) (p : ℚ) (idx : String)
        (subs : List (ℚ × ℚ)) (cal : Calendar),
      mkZeroCouponSwapDefault t N sd md p idx subs cal
        = mkZeroCouponSwap t N sd md p idx subs cal
            BusinessDayConvention.Following 0 RateAveraging.Compound)
    ∧ (∀ (t : SwapType) (N : ℚ) (sd md : Date) (r : ℚ) (dc : DayCounter)
        (pw : ℚ → ℚ → ℚ) (idx : String) (subs : List (ℚ × ℚ)) (cal : Calendar),
      mkZeroCouponSwapFromRateDefault t N sd md r dc pw idx subs cal
        = mkZeroCouponSwapFromRate t N sd md r dc pw idx subs cal
            BusinessDayConvention.Following 0 RateAveraging.Compound) :=
  ⟨fun _ _ _ _ _ _ _ _ => rfl, fun _ _ _ _ _ _ _ _ _ _ => rfl⟩

/-- Claim C3: the swap type takes exactly the values Payer = +1 and
Receiver = -1; when the leg NPVs are aggregated into the instrument NPV it
acts only as a sign multiplier applied to the floating leg relative to the
fixed leg; and it does not change the magnitude of any leg cash flow (the
legs built by the constructor are identical for both type values). -/
theorem type_is_only_a_sign_multiplier :
    (∀ t : SwapType, t.toInt = 1 ∨ t.toInt = -1)
    ∧ SwapType.toInt SwapType.Payer = 1
    ∧ SwapType.toInt SwapType.Receiver = -1
    ∧ (∀ (s : ZeroCouponSwap) (fNPV flNPV : ℚ),
        s.instrumentNPV fNPV flNPV = (s.type.toInt : ℚ) * (flNPV - fNPV))
    ∧ (∀ (t u : SwapType) (N : ℚ) (sd md : Date) (p : ℚ) (idx : String)
        (subs : List (ℚ × ℚ)) (cal : Calendar) (conv : BusinessDayConvention)
        (delay : Nat) (avg : RateAveraging),
        (mkZeroCouponSwap t N sd md p idx subs cal conv delay avg).fixedLeg
          = (mkZeroCouponSwap u N sd md p idx subs cal conv delay avg).fixedLeg
        ∧ (mkZeroCouponSwap t N sd md p idx subs cal conv delay avg).floatingLeg
          = (mkZeroCouponSwap u N sd md p idx subs cal conv delay avg).floatingLeg) := by
  refine ⟨fun t => ?_, rfl, rfl, fun s fNPV flNPV => ?_, fun t u N sd md p idx subs cal conv delay avg => ⟨rfl, rfl⟩⟩
  · cases t
    · exact Or.inr rfl
    · exact Or.inl rfl
  · simp only [ZeroCouponSwap.instrumentNPV, SwapType.payerSigns, aggregateNPV]
    push_cast
    ring

/-- Claim C1: for every date d strictly before the evaluation date,
`fixing(d, f)` (for either value of the flag f) resolves exclusively from
the historical store: the result is unchanged under any replacement of the
two forecasting curve handles, and when d is a valid fixing date the result
is exactly the stored value when present and the MissingFixing failure when
absent. -/
theorem fixing_before_today_is_historical_only (i : EquityIndex)
    (env : FixingEnv) (d : Date) (f : Bool) (h : d < env.today) :
    (∀ c1 c2 : Option YieldTermStructure,
      ({ i with interest := c1, dividend := c2 } : EquityIndex).fixing env d f
        = i.fixing env d f)
    ∧ (i.isValidFixingDate d = true →
        i.fixing env d f
          = match env.pastFixings d with
            | some v => Except.ok v
            | none => Except.error FixingError.MissingFixing) := by
  constructor
  · intro c1 c2
    simp only [EquityIndex.fixing, EquityIndex.isValidFixingDate,
      EquityIndex.fixingCalendar, EquityIndex.pastFixing, h, if_true]
  · intro hv
    simp only [EquityIndex.fixing, EquityIndex.pastFixing, hv, if_true, h]

/-- Witness for claim C1, at the sample index and environment: date 3 is
before the evaluation date 10 and is a valid fixing date, and the fixing
resolves to the stored value 100. -/
theorem fixing_before_today_is_historical_only_witness :
    (3 : Date) < sampleEnv.today
    ∧ sampleIndex.isValidFixingDate 3 = true
    ∧ sampleIndex.fixing sampleEnv 3 false = Except.ok (100 : ℚ) := by
  refine ⟨by decide, rfl, ?_⟩
  have h :=
    (fixing_before_today_is_historical_only sampleIndex sampleEnv 3 false
      (by decide)).2 rfl
  exact h.trans rfl

/-- Claim C5: when the requested date equals the evaluation date and
`forecastTodaysFixing` is true, `fixing` goes directly to curve-based
forecasting and never consults the historical store, even when a historical
value for that date exists: the result equals `forecastFixing` and is
unchanged under any replacement of the store. -/
theorem fixing_today_with_forecast_flag (i : EquityIndex) (env : FixingEnv)
    (d : Date) (v : ℚ) (hd : d = env.today)
    (hv : i.isValidFixingDate d = true)
    (hp : env.pastFixings d = some v) :
    i.fixing env d true = i.forecastFixing env d
    ∧ ∀ store : Date → Option ℚ,
        i.fixing { env with pastFixings := store } d true
          = i.fixing env d true := by
  subst hd
  constructor
  · simp only [EquityIndex.fixing, hv, if_true, lt_irrefl, if_false, if_pos rfl]
  · intro store
    simp only [EquityIndex.fixing, EquityIndex.forecastFixing, hv, if_true,
      lt_irrefl, if_false, if_pos rfl]

/-- Witness for claim C5, at the sample index and environment: the store
holds 120 at the evaluation date 10, yet the fixing with the flag set equals
the curve forecast and survives emptying the store. -/
theorem fixing_today_with_forecast_flag_witness :
    sampleEnv.pastFixings 10 = some (120 : ℚ)
    ∧ sampleIndex.fixing sampleEnv 10 true = sampleIndex.forecastFixing sampleEnv 10
    ∧ sampleIndex.fixing { sampleEnv with pastFixings := fun _ => none } 10 true
        = sampleIndex.fixing sampleEnv 10 true := by
  refine ⟨rfl, ?_, ?_⟩
  · exact (fixing_today_with_forecast_flag sampleIndex sampleEnv 10 120 rfl rfl
      rfl).1
  · exact (fixing_today_with_forecast_flag sampleIndex sampleEnv 10 120 rfl rfl
      rfl).2 (fun _ => none)

/-- Claim C6: for a swap constructed with a maturity date not after the
start date, the engine-side validation, which runs before the calculation,
fails with the argument-validation error; the valuation call is aborted and
no result is produced. -/
theorem validate_rejects_maturity_not_after_start {R : Type}
    (compute : ZeroCouponSwapArguments → R) (t : SwapType) (N : ℚ)
    (sd md : Date) (p : ℚ) (idx : String) (subs : List (ℚ × ℚ))
    (cal : Calendar) (conv : BusinessDayConvention) (delay : Nat)
    (avg : RateAveraging) (h : md ≤ sd) :
    engineCalculate
        ((mkZeroCouponSwap t N sd md p idx subs cal conv delay avg).setupArguments)
        compute
      = Except.error PricingError.ArgumentValidationError := by
  have hval :
      (mkZeroCouponSwap t N sd md p idx subs cal conv delay avg).setupArguments.validate
        = Except.error PricingError.ArgumentValidationError := by
    by_cases hN : N ≤ (0 : ℚ)
    · simp only [ZeroCouponSwapArguments.validate, ZeroCouponSwap.setupArguments,
        mkZeroCouponSwap, hN, if_true]
    · simp only [ZeroCouponSwapArguments.validate, ZeroCouponSwap.setupArguments,
        mkZeroCouponSwap, hN, if_false, h, if_true]
  unfold engineCalculate
  rw [hval]

/-- Witness for claim C6: a swap with start date 5 and maturity date 5 is
rejected by the engine driver with the argument-validation error. -/
theorem validate_rejects_maturity_not_after_start_witness :
    (5 : Date) ≤ 5
    ∧ engineCalculate
        ((mkZeroCouponSwap SwapType.Payer 100 5 5 1 "IDX" [] sampleCalendar
            BusinessDayConvention.Following 0 RateAveraging.Compound).setupArguments)
        (fun _ => (0 : ℚ))
      = Except.error PricingError.ArgumentValidationError :=
  ⟨by decide,
    validate_rejects_maturity_not_after_start (fun _ => (0 : ℚ)) SwapType.Payer
      100 5 5 1 "IDX" [] sampleCalendar BusinessDayConvention.Following 0
      RateAveraging.Compound (by decide)⟩

/-- Claim C7: cloning an index onto new curve handles yields a new index
with the same name and fixing calendar whose forecasting uses the new
handles and which starts with no registered observers; the original record
is not mutated, so relinking the clone again only produces yet another
object with the requested handles while the original keeps forecasting from
its own unchanged handles. -/
theorem clone_relinks_curves_and_preserves_identity (i : EquityIndex)
    (a b : Option YieldTermStructure) :
    (i.clone a b).name = i.name
    ∧ (i.clone a b).fixingCalendar = i.fixingCalendar
    ∧ (i.clone a b).interest = a
    ∧ (i.clone a b).dividend = b
    ∧ (i.clone a b).observers = []
    ∧ (∀ (env : FixingEnv) (d : Date),
        (i.clone a b).forecastFixing env d
          = EquityIndex.forecastFixing
              { i with interest := a, dividend := b } env d)
    ∧ (∀ (a2 b2 : Option YieldTermStructure),
        ((i.clone a b).clone a2 b2).interest = a2
        ∧ ((i.clone a b).clone a2 b2).dividend = b2
        ∧ ((i.clone a b).clone a2 b2).name = i.name)
    ∧ (∀ (env : FixingEnv) (d : Date),
        i.forecastFixing env d
          = match i.interest, i.dividend with
            | some r, some q =>
                Except.ok (env.lastSpot * (q.discount d / q.discount env.today) /
                  (r.discount d / r.discount env.today))
            | _, _ => Except.error FixingError.NullCurve) :=
  ⟨rfl, rfl, rfl, rfl, rfl, fun _ _ => rfl, fun _ _ => ⟨rfl, rfl, rfl⟩,
    fun _ _ => rfl⟩
